import Mathlib

/-!
Verification development for the gopy pybindgen-backend generator
(`bind/gen.go`).  The generator walks a pre-built symbol table and emits
four kinds of textual artifacts: a cgo glue file, a `build.py` script,
a `Makefile`, per-package python wrapper files, plus an empty
`__init__.py` package marker.

The embedding below is shallow: buffers are modelled as lists of
emission events (fixed text is `Ev.raw`; the per-declaration emitters
whose bodies live outside `bind/gen.go` are modelled as tagged events),
the file system as an oracle describing which `MkdirAll` / `Create` /
`Copy` calls fail, and the generator as a pure function of the symbol
table, the configuration, the map-iteration order of the import set,
and that oracle.
-/

namespace GopyGen

/-- A symbol of the global symbol table (`symbol` in gopy): its name,
whether it is a type, and the import path of its owning package
(`sym.gopkg.Path()`). -/
structure Sym where
  name : String
  isType : Bool
  gopkgPath : String
deriving DecidableEq, Repr

/-- A struct entry of a package, with the names of its associated
constructor functions (`s.ctors`). -/
structure GoStruct where
  name : String
  ctors : List String
deriving DecidableEq, Repr

/-- A target `Package` as the generator reads it: display name, import
path, doc string, the `pkg.Imports()` list as (path, name) pairs in its
given order, and the ordered declaration lists. -/
structure Package where
  name : String
  path : String
  doc : String
  imports : List (String × String)
  consts : List String
  vars : List String
  ifaces : List String
  structs : List GoStruct
  funcs : List String
deriving DecidableEq, Repr

/-- The global symbol table `current`: `syms` is the symbol list in the
stable order produced by `current.names()`, and `importKeys` is the key
set of the Go map `current.imports`.  Because `current.imports` is a Go
map, the order in which a run enumerates it is NOT determined by the
table; the generator model therefore takes the iteration order as a
separate argument (any permutation of `importKeys`). -/
structure Symtab where
  syms : List Sym
  importKeys : List String
deriving Repr

/-- The configuration handed to `GenPyBind` / carried by `pyGen`. -/
structure Config where
  odir : String
  outname : String
  cmdstr : String
  vm : String
  libext : String
  lang : Nat
deriving Repr

/-- `var GoHandle = "int64"` (gen.go line 22). -/
def GoHandle : String := "int64"

/-- `var CGoHandle = "C.longlong"` (gen.go line 23). -/
def CGoHandle : String := "C.longlong"

/-- `var PyHandle = "int64_t"` (gen.go line 24). -/
def PyHandle : String := "int64_t"

/-! ### The emitted boolean codec

`bind/gen.go` emits, inside the glue preamble, the two conversion
functions `boolGoToPy` / `boolPyToGo` (template lines 57-71).  We embed
the emitted Go code; `C.char` values are modelled as integers. -/

/-- Embeds the emitted `func boolGoToPy(b bool) C.char`:
`if b { return 1 }; return 0`. -/
def boolGoToPy (b : Bool) : Int :=
  if b then 1 else 0

/-- Embeds the emitted `func boolPyToGo(b C.char) bool`:
`if b != 0 { return true }; return false`. -/
def boolPyToGo (b : Int) : Bool :=
  if b ≠ 0 then true else false

/-! ### Go standard-library string helpers used by gen.go

Strings are manipulated through their character lists; indices returned
by `strings.Index` are `Int` (with `-1` for "not found"), matching Go. -/

/-- Helper for `goIndex`: first position at or after `i` where `needle`
begins in the remaining haystack, or `-1`. -/
def goIndexFrom (needle : List Char) : List Char → Nat → Int
  | hay, i =>
    if needle.isPrefixOf hay then (i : Int)
    else
      match hay with
      | [] => -1
      | _ :: t => goIndexFrom needle t (i + 1)

/-- Embeds `strings.Index(hay, needle)`: index of the first instance of
`needle` in `hay`, or `-1` if absent (an empty needle matches at 0). -/
def goIndex (hay needle : List Char) : Int :=
  goIndexFrom needle hay 0

/-- Boolean substring test derived from `goIndex` (used to state
properties about generated text). -/
def strContains (s sub : String) : Bool :=
  0 ≤ goIndex s.data sub.data

/-- Embeds `strings.Replace(s, old, new, 1)` for the non-empty `old`
used by `genMakefile`: replaces the first occurrence of `old`, if any. -/
def goReplace1 (s old new : String) : String :=
  let i := goIndex s.data old.data
  if 0 ≤ i then
    ⟨s.data.take i.toNat ++ new.data ++ s.data.drop (i.toNat + old.data.length)⟩
  else s

/-- Embeds `fmt.Sprintf("%q", path)` for the import paths interpolated
into the glue preamble; gopy import paths contain no characters that
`%q` would escape, so quoting is plain double-quote wrapping. -/
def goQuote (s : String) : String :=
  "\"" ++ s ++ "\""

/-- Embeds `filepath.Split(p)`: splits after the final slash into
(directory-with-slash, file). -/
def filepathSplit (p : String) : String × String :=
  let i := goIndex p.data.reverse ['/']
  if 0 ≤ i then
    let cut := p.data.length - i.toNat
    (⟨p.data.take cut⟩, ⟨p.data.drop cut⟩)
  else ("", p)

/-- Models `filepath.Clean` for the slash-terminated directory strings
`genGoPreamble` feeds it (it only needs the trailing separator
removed); the full lexical-cleaning algorithm of the Go standard
library is out of scope and no claim depends on it. -/
def filepathClean (p : String) : String :=
  if p = "" then "."
  else if p.data.getLast? = some '/' ∧ p.data.length > 1 then ⟨p.data.dropLast⟩
  else p

/-- Models `filepath.Join(a, b)` for the path components
`genGoPreamble` joins: separator insertion, with the doubled separator
that `filepath.Clean` would collapse avoided up front. -/
def filepathJoin (a b : String) : String :=
  if a = "" then filepathClean b
  else if a.data.getLast? = some '/' then ⟨a.data.dropLast⟩ ++ "/" ++ b
  else a ++ "/" ++ b

/-! ### `StripOutputFromCmd` and the Makefile generate command -/

/-- The literal `"-output="` searched for by `StripOutputFromCmd`. -/
def outputPat : List Char := "-output=".data

/-- Embeds `StripOutputFromCmd` (gen.go lines 305-311) on character
lists.  Note the Go slice `cmdstr[oidx+spidx+1:]` with `spidx = -1`
(no space after the flag) is `cmdstr[oidx:]`, so the string comes back
unchanged in that case; likewise nothing is stripped when `oidx = 0`
because the guard is `oidx > 0`. -/
def stripOutputFromCmd (cmd : List Char) : List Char :=
  let oidx := goIndex cmd outputPat
  if 0 < oidx then
    let o := oidx.toNat
    let spidx := goIndex (cmd.drop o) [' ']
    cmd.take o ++ cmd.drop ((o : Int) + spidx + 1).toNat
  else cmd

/-- `StripOutputFromCmd` on `String`. -/
def StripOutputFromCmd (cmdstr : String) : String :=
  ⟨stripOutputFromCmd cmdstr.data⟩

/-- The generate-only command embedded in the Makefile (gen.go lines
314-315): replace the first `"gopy build"` with `"gopy gen"`, then
strip the output flag. -/
def makefileGencmd (cmdstr : String) : String :=
  StripOutputFromCmd (goReplace1 cmdstr "gopy build" "gopy gen")

/-! ### Artifact templates

The four template constants of gen.go are `fmt`-style format strings;
we embed each as the function from its interpolated arguments to the
produced text, keeping the interpolation slots in template order.
Braces and apostrophes of the quoted program text appear as `\x7b`,
`\x7d` and `\x27` escapes. -/

/-- Accumulation of the glue-preamble import list (gen.go lines
267-270): `pkgimport += fmt.Sprintf("\n\t%q", pi)` over the iteration
order of the Go map `current.imports`. -/
def pkgimportStr (order : List String) : String :=
  order.foldl (fun acc pi => acc ++ "\n\t" ++ goQuote pi) ""

/-- The `goPreamble` template (gen.go lines 32-73) applied to its six
arguments: 1 = outname, 2 = cmdstr, 3 = libcfg, 4 = GoHandle,
5 = CGoHandle, 6 = all imports. -/
def goPreamble (o c l gh cgh imps : String) : String :=
  "/*\ncgo stubs for package " ++
  (o ++
  (".\nFile is generated by gopy. Do not edit.\n" ++
  (c ++
  ("\n*/\n\npackage main\n\n/*\n#cgo pkg-config: " ++
  (l ++
  ("\n#define Py_LIMITED_API\n#include <Python.h>\n*/\nimport \"C\"\nimport (\n\t\"github.com/goki/gopy/gopyh\" // handler\n\t" ++
  (imps ++
  ("\n)\n\nfunc main() \x7b\x7d\n\n// type for the handle -- int64 for speed (can switch to string)\ntype GoHandle " ++
  (gh ++
  ("\ntype CGoHandle " ++
  (cgh ++
  "\n\n// boolGoToPy converts a Go bool to python-compatible C.char\nfunc boolGoToPy(b bool) C.char \x7b\n\tif b \x7b\n\t\treturn 1\n\t\x7d\n\treturn 0\n\x7d\n\n// boolPyToGo converts a python-compatible C.Char to Go bool\nfunc boolPyToGo(b C.char) bool \x7b\n\tif b != 0 \x7b\n\t\treturn true\n\t\x7d\n\treturn false\n\x7d\n\n")))))))))))

/-- The `PyBuildPreamble` template (gen.go lines 75-84) applied to
1 = outname, 2 = cmdstr. -/
def PyBuildPreamble (o c : String) : String :=
  "# python build stubs for package " ++
  (o ++
  ("\n# File is generated by gopy. Do not edit.\n# " ++
  (c ++
  ("\n\nfrom pybindgen import retval, param, Module\nimport sys\n\nmod = Module(\x27_" ++
  (o ++
  ("\x27)\nmod.add_include(\x27\"" ++
  (o ++
  "_go.h\"\x27)\n")))))))

/-- The `PyWrapPreamble` template (gen.go lines 87-112) applied to
1 = outname, 2 = cmdstr, 3 = specific package name, 4 = package path,
5 = doc, 6 = imports.  The slots appear in template order
5, 4, 1, 2, 1, 1, 3, 3, 6. -/
def PyWrapPreamble (o c n p4 d imp : String) : String :=
  d ++
  ("\n# python wrapper for package " ++
  (p4 ++
  (" within overall package " ++
  (o ++
  ("\n# This is what you import to use the package.\n# File is generated by gopy. Do not edit.\n# " ++
  (c ++
  ("\n\n# the following is required to enable dlopen to open the _go.so file\nimport os,sys,inspect,collections\ncwd = os.getcwd()\ncurrentdir = os.path.dirname(os.path.abspath(inspect.getfile(inspect.currentframe())))\nos.chdir(currentdir)\nimport _" ++
  (o ++
  ("\nos.chdir(cwd)\n\n# to use this code in your end-user python file, import it as follows:\n# from " ++
  (o ++
  (" import " ++
  (n ++
  ("\n# and then refer to everything using " ++
  (n ++
  (". prefix\n# packages imported by this package listed below:\n\n" ++
  (imp ++
  "\n\nclass GoClass(object):\n\t\"\"\"GoClass is the base class for all GoPy wrapper classes\"\"\"\n\tpass\n\t\n"))))))))))))))))

/-- The `MakefileTemplate` (gen.go lines 115-148) applied to
1 = outname, 2 = cmdstr, 3 = gencmd, 4 = vm, 5 = libext. -/
def MakefileTemplate (o c gcmd v le : String) : String :=
  "# Makefile for python interface for package " ++
  (o ++
  (".\n# File is generated by gopy. Do not edit.\n# " ++
  (c ++
  ("\n\nGOCMD=go\nGOBUILD=$(GOCMD) build\nPYTHON=" ++
  (v ++
  ("\nPYTHON_CFG=$(PYTHON)-config\nGCC=gcc\nLIBEXT=" ++
  (le ++
  ("\n\n# get the flags used to build python:\nCFLAGS = $(shell $(PYTHON_CFG) --cflags)\nLDFLAGS = $(shell $(PYTHON_CFG) --ldflags)\n\nall: gen build\n\ngen:\n\t" ++
  (gcmd ++
  ("\n\nbuild:\n\t# build target builds the generated files -- this is what gopy build does..\n\t# this will otherwise be built during go build and may be out of date\n\t- rm " ++
  (o ++
  (".c\n\t# generate " ++
  (o ++
  ("_go$(LIBEXT) from " ++
  (o ++
  (".go -- the cgo wrappers to go functions\n\t$(GOBUILD) -buildmode=c-shared -ldflags=\"-s -w\" -o " ++
  (o ++
  ("_go$(LIBEXT) " ++
  (o ++
  (".go\n\t# use pybindgen to build the " ++
  (o ++
  (".c file which are the CPython wrappers to cgo wrappers..\n\t# note: pip install pybindgen to get pybindgen if this fails\n\t$(PYTHON) build.py\n\t# build the _" ++
  (o ++
  ("$(LIBEXT) library that contains the cgo and CPython wrappers\n\t# generated " ++
  (o ++
  (".py python wrapper imports this c-code package\n\t$(GCC) " ++
  (o ++
  (".c -dynamiclib " ++
  (o ++
  ("_go$(LIBEXT) -o _" ++
  (o ++
  "$(LIBEXT) $(CFLAGS) $(LDFLAGS)\n\t\n")))))))))))))))))))))))))))))))

/-- The library-configuration path derived from the interpreter path in
`genGoPreamble` (gen.go lines 271-273). -/
def libcfgOf (vm : String) : String :=
  let sp := filepathSplit vm
  let sr := filepathSplit (filepathClean sp.1)
  filepathJoin (filepathJoin (filepathJoin sr.1 "lib") "pkgconfig") (sp.2 ++ ".pc")

/-! ### Emission events

The buffers held by `pyGen` (`gofile`, `pybuild`, `pywrap`,
`makefile`) are modelled as lists of emission events.  Fixed `Printf`
text is `Ev.raw`.  The per-declaration emitters called from gen.go —
`genType`, `genConstValue`, `genVarGetter`, `genVarSetter`,
`genInterface`, `genStruct`, `genFunc` — have their bodies in other
files of the repository, so each call is modelled as one tagged event
recording which declaration was emitted; per the spec, each such
emission writes into the shared glue buffer and the current package's
wrapper buffer (wrap-only and glue-only for the two external-type
passes, which carry the flags `(ext, pyWrapOnly)` at the call sites in
gen.go). -/
inductive Ev where
  | raw (s : String)
  | typ (name : String) (ext : Bool) (wrapOnly : Bool)
  | constVal (name : String)
  | varGetter (name : String)
  | varSetter (name : String)
  | iface (name : String)
  | strukt (name : String)
  | fn (name : String)
deriving DecidableEq, Repr

/-- `genConst` (gen.go lines 407-409) performs the single emission
`genConstValue(c)`. -/
def genConstEvs (c : String) : List Ev :=
  [Ev.constVal c]

/-- `genVar` (gen.go lines 411-414) performs the two emissions
`genVarGetter(v)` then `genVarSetter(v)`. -/
def genVarEvs (v : String) : List Ev :=
  [Ev.varGetter v, Ev.varSetter v]

/-- The target-set membership map built by `genPackageMap` (gen.go
lines 215-220): the import paths of the target packages. -/
def pkgPaths (packages : List Package) : List String :=
  packages.map (·.path)

/-- The skip conditions shared by the two external-type loops (gen.go
lines 323-333 and 340-350): keep a symbol iff `sym.isType()` and its
owning package path is not in `g.pkgmap`.  The loops run over
`current.names()` in the table's stable order, so this is an
order-preserving filter of `tbl.syms`. -/
def extFilter (pkgmap : List String) (tbl : Symtab) : List Sym :=
  tbl.syms.filter (fun s => s.isType && !(pkgmap.contains s.gopkgPath))

/-- `genExtTypesGo` (gen.go lines 320-334): header comment, then
`genType(sym, true, false)` for each surviving symbol. -/
def genExtTypesGoEvs (pkgmap : List String) (tbl : Symtab) : List Ev :=
  Ev.raw "\n// ---- External Types Outside of Targeted Packages ---\n" ::
    (extFilter pkgmap tbl).map (fun s => Ev.typ s.name true false)

/-- `genExtTypesPyWrap` (gen.go lines 337-351): header comment, then
`genType(sym, true, true)` for each surviving symbol. -/
def genExtTypesPyWrapEvs (pkgmap : List String) (tbl : Symtab) : List Ev :=
  Ev.raw "\n# ---- External Types Outside of Targeted Packages ---\n" ::
    (extFilter pkgmap tbl).map (fun s => Ev.typ s.name true true)

/-- The types belonging to the current package, in stable table order:
the loop at gen.go lines 358-365 skips a symbol unless `sym.isType()`
and `sym.gopkg == g.pkg.pkg`. -/
def ownTypes (tbl : Symtab) (p : Package) : List Sym :=
  tbl.syms.filter (fun s => s.isType && s.gopkgPath == p.path)

/-- Glue-buffer side of `genAll` (gen.go lines 353-405): the package
header and section headers written to `g.gofile`, interleaved with the
per-declaration emissions in the fixed call order types, constants,
variables, interfaces, structs, constructors, functions. -/
def genAllGoEvs (tbl : Symtab) (p : Package) : List Ev :=
  [Ev.raw ("\n// ---- Package: " ++ p.name ++ " ---\n"),
   Ev.raw "\n// ---- Types ---\n"]
  ++ (ownTypes tbl p).map (fun s => Ev.typ s.name false false)
  ++ p.consts.flatMap genConstEvs
  ++ [Ev.raw "\n\n// ---- Global Variables: can only use functions to access ---\n"]
  ++ p.vars.flatMap genVarEvs
  ++ [Ev.raw "\n\n// ---- Interfaces ---\n"]
  ++ p.ifaces.map Ev.iface
  ++ [Ev.raw "\n\n// ---- Structs ---\n"]
  ++ p.structs.map (fun s => Ev.strukt s.name)
  ++ [Ev.raw "\n\n// ---- Constructors ---\n"]
  ++ p.structs.flatMap (fun s => s.ctors.map Ev.fn)
  ++ [Ev.raw "\n\n// ---- Functions ---\n"]
  ++ p.funcs.map Ev.fn

/-- Wrapper-buffer side of `genAll` (gen.go lines 353-405): the section
headers written to `g.pywrap` and the same per-declaration emissions in
the same fixed order. -/
def genAllPyEvs (tbl : Symtab) (p : Package) : List Ev :=
  [Ev.raw "\n# ---- Types ---\n"]
  ++ (ownTypes tbl p).map (fun s => Ev.typ s.name false false)
  ++ [Ev.raw "\n\n#---- Constants from Go: Python can only ask that you please don\x27t change these! ---\n"]
  ++ p.consts.flatMap genConstEvs
  ++ [Ev.raw "\n\n# ---- Global Variables: can only use functions to access ---\n"]
  ++ p.vars.flatMap genVarEvs
  ++ [Ev.raw "\n\n# ---- Interfaces ---\n"]
  ++ p.ifaces.map Ev.iface
  ++ [Ev.raw "\n\n# ---- Structs ---\n"]
  ++ p.structs.map (fun s => Ev.strukt s.name)
  ++ [Ev.raw "\n\n# ---- Constructors ---\n"]
  ++ p.structs.flatMap (fun s => s.ctors.map Ev.fn)
  ++ [Ev.raw "\n\n# ---- Functions ---\n"]
  ++ p.funcs.map Ev.fn

/-- The wrapper-preamble import block (gen.go lines 291-298): one
`from <outname> import <name>` line per imported package whose path is
in the target map, in `pkg.Imports()` order. -/
def pyWrapImpstr (pkgmap : List String) (outname : String)
    (imports : List (String × String)) : String :=
  imports.foldl
    (fun acc im =>
      if pkgmap.contains im.1 then
        acc ++ "from " ++ outname ++ " import " ++ im.2 ++ "\n"
      else acc) ""

/-- The doc-string wrapping of `genPyWrapPreamble` (gen.go lines
285-288): a non-empty package doc is wrapped in triple quotes. -/
def pkgDocOf (p : Package) : String :=
  if p.doc ≠ "" then "\"\"\"" ++ "\n" ++ p.doc ++ "\n" ++ "\"\"\"" else p.doc

/-- The text printed by `genPyWrapPreamble` (gen.go lines 282-301). -/
def genPyWrapPreambleText (cfg : Config) (pkgmap : List String)
    (p : Package) : String :=
  PyWrapPreamble cfg.outname cfg.cmdstr p.name p.path (pkgDocOf p)
    (pyWrapImpstr pkgmap cfg.outname p.imports)

/-- The wrapper buffer a run of `genPkg` builds for package `p` (gen.go
lines 256-264 plus the trailing `"\n\n"` of `genPkgWrapOut`, line 252):
a fresh buffer receiving the wrapper preamble, the external types, the
package's own declarations, and the trailer. -/
def wrapEvs (cfg : Config) (tbl : Symtab) (pkgmap : List String)
    (p : Package) : List Ev :=
  Ev.raw (genPyWrapPreambleText cfg pkgmap p) ::
    (genExtTypesPyWrapEvs pkgmap tbl ++ genAllPyEvs tbl p ++ [Ev.raw "\n\n"])

/-- The glue preamble printed by `genGoPreamble` (gen.go lines
266-276), including the trailing generated-code banner.
`importOrder` is the order in which this run's `range` loop enumerates
the Go map `current.imports`. -/
def genGoPreambleEvs (cfg : Config) (importOrder : List String) : List Ev :=
  [Ev.raw (goPreamble cfg.outname cfg.cmdstr (libcfgOf cfg.vm) GoHandle
      CGoHandle (pkgimportStr importOrder)),
   Ev.raw ("\n// --- generated code for package: " ++ cfg.outname ++ " below: ---\n\n")]

/-- The final glue buffer: preamble, external types, per-package
sections in table order, and the `genOut` trailer (gen.go line 244). -/
def gofileEvs (cfg : Config) (pkgmap : List String) (tbl : Symtab)
    (importOrder : List String) (packages : List Package) : List Ev :=
  genGoPreambleEvs cfg importOrder
  ++ genExtTypesGoEvs pkgmap tbl
  ++ packages.flatMap (genAllGoEvs tbl)
  ++ [Ev.raw "\n\n"]

/-- The final build-script buffer: `genPyBuildPreamble` (gen.go line
279) and the `mod.generate` trailer of `genOut` (gen.go line 243). -/
def pybuildEvs (cfg : Config) : List Ev :=
  [Ev.raw (PyBuildPreamble cfg.outname cfg.cmdstr),
   Ev.raw ("\nmod.generate(open(\x27" ++ cfg.outname ++ ".c\x27, \x27w\x27))\n\n")]

/-- The final Makefile buffer: `genMakefile` (gen.go lines 313-317) and
the `genOut` trailer (gen.go line 245). -/
def makefileEvs (cfg : Config) : List Ev :=
  [Ev.raw (MakefileTemplate cfg.outname cfg.cmdstr (makefileGencmd cfg.cmdstr)
      cfg.vm cfg.libext),
   Ev.raw "\n\n"]

/-! ### The orchestrator with its effect oracle -/

/-- File-system oracle for one generation run: the result of
`os.MkdirAll(odir)`, and per file name the results of `os.Create` and
of the `io.Copy` that flushes a buffer into it (`none` = success,
`some msg` = the error's message). -/
structure FS where
  mkdirErr : Option String
  createErr : String → Option String
  copyErr : String → Option String

/-- Modelled from the spec: `ErrorList.Add` is repository code outside
`bind/gen.go`; per the spec, every error encountered is appended to the
single aggregate list and a nil error is not recorded. -/
def errAdd (errs : List String) (e : Option String) : List String :=
  match e with
  | none => errs
  | some m => errs ++ [m]

/-- Modelled from the spec: `ErrorList.Error` is repository code
outside `bind/gen.go`; per the spec, the returned error's text is the
concatenation of every recorded error message in the order
encountered. -/
def errorListError (errs : List String) : String :=
  String.join errs

/-- The message of the error `io.Copy` returns when `os.Create` failed
and the file handle is nil (`os.ErrInvalid`). -/
def errInvalid : String := "invalid argument"

/-- `genPrintOut` (gen.go lines 234-240): create the file, record a
creation error, copy the buffer, record a copy error, close.  Returns
the grown error list and the file written (with its content when the
copy succeeded; a file whose copy failed has unspecified partial
content, modelled as empty). -/
def genPrintOut (fs : FS) (errs : List String) (outfn : String)
    (buf : List Ev) : List String × List (String × List Ev) :=
  match fs.createErr outfn with
  | some e => (errAdd (errAdd errs (some e)) (some errInvalid), [])
  | none =>
    match fs.copyErr outfn with
    | some e => (errAdd errs (some e), [(outfn, [])])
    | none => (errs, [(outfn, buf)])

/-- The mutable parts of `pyGen` the package loop touches: the error
accumulator, the files flushed so far, and the current-package field
`g.pkg`. -/
structure GenSt where
  errs : List String
  files : List (String × List Ev)
  pkg : Option Package
deriving Repr

/-- `genPkg` (gen.go lines 256-264): set `g.pkg`, allocate a fresh
wrapper buffer, emit preamble + external types + the package's
declarations into it, flush it to `<pkg name>.py` (`genPkgWrapOut`,
gen.go lines 251-254), and reset `g.pkg` to nil. -/
def genPkg (fs : FS) (cfg : Config) (tbl : Symtab) (pkgmap : List String)
    (st : GenSt) (p : Package) : GenSt :=
  let st1 : GenSt := { st with pkg := some p }
  let buf := wrapEvs cfg tbl pkgmap p
  let out := genPrintOut fs st1.errs (p.name ++ ".py") buf
  { errs := out.1, files := st1.files ++ out.2, pkg := none }

/-- The observable outcome of one `gen` run: the returned error value,
the final error accumulator, the files written (name, content) in the
order written, and the final value of the `g.pkg` field. -/
structure GenResult where
  ret : Option String
  errs : List String
  files : List (String × List Ev)
  pkgField : Option Package
deriving Repr

/-- The post-`MkdirAll` part of `pyGen.gen` (gen.go lines 202-212):
`genPackageMap`, `genPre` (buffers, preambles, `__init__.py`), the
external-type glue pass, the package loop, and `genOut`.  Buffer writes
are pure, so the glue/build/make buffers are assembled by the content
functions above with exactly the content the interleaved `Printf`
calls produce; file writes and error recording happen in program
order: `__init__.py`, one wrapper per package, then `<outname>.go`,
`build.py`, `Makefile`. -/
def genBody (cfg : Config) (packages : List Package) (tbl : Symtab)
    (importOrder : List String) (fs : FS) : GenResult :=
  let pkgmap := pkgPaths packages
  let errs0 := errAdd [] (fs.createErr "__init__.py")
  let files0 : List (String × List Ev) :=
    match fs.createErr "__init__.py" with
    | some _ => []
    | none => [("__init__.py", [])]
  let st1 := packages.foldl (genPkg fs cfg tbl pkgmap) ⟨errs0, files0, none⟩
  let o2 := genPrintOut fs st1.errs (cfg.outname ++ ".go")
    (gofileEvs cfg pkgmap tbl importOrder packages)
  let o3 := genPrintOut fs o2.1 "build.py" (pybuildEvs cfg)
  let o4 := genPrintOut fs o3.1 "Makefile" (makefileEvs cfg)
  { ret := if o4.1 = [] then none else some (errorListError o4.1),
    errs := o4.1,
    files := st1.files ++ o2.2 ++ o3.2 ++ o4.2,
    pkgField := st1.pkg }

/-- `pyGen.gen` (gen.go lines 195-213): `g.pkg = nil`, then
`os.MkdirAll` — whose failure returns immediately with a wrapped error,
before any other step runs — then the full pass. -/
def gen (cfg : Config) (packages : List Package) (tbl : Symtab)
    (importOrder : List String) (fs : FS) : GenResult :=
  match fs.mkdirErr with
  | some e =>
    { ret := some ("gopy: could not create output directory: " ++ e),
      errs := [], files := [], pkgField := none }
  | none => genBody cfg packages tbl importOrder fs

/-- `GenPyBind` (gen.go lines 161-175) just runs `gen` and forwards
its error; the artifacts are those of `gen`. -/
def GenPyBind (cfg : Config) (packages : List Package) (tbl : Symtab)
    (importOrder : List String) (fs : FS) : GenResult :=
  gen cfg packages tbl importOrder fs

/-! ### Concrete fixtures for counterexamples and witnesses -/

/-- Concrete configuration used by closed counterexamples/witnesses. -/
def cfg0 : Config :=
  ⟨"out", "pkg", "gopy build -output=/tmp/x github.com/foo/bar",
    "/usr/bin/python3", ".so", 3⟩

/-- The empty symbol table. -/
def tbl0 : Symtab := ⟨[], []⟩

/-- The fully healthy file-system oracle. -/
def fsOk : FS := ⟨none, fun _ => none, fun _ => none⟩

/-- Oracle where directory creation fails with "boom" and a later
build-script creation would fail with "disk full". -/
def fsMkdirFail : FS :=
  ⟨some "boom", fun f => if f = "build.py" then some "disk full" else none,
    fun _ => none⟩

/-- Oracle where the package-marker creation fails with `e1` and the
flush of the build script fails with `e2`; everything else succeeds. -/
def fsTwoFail (e1 e2 : String) : FS :=
  ⟨none, fun f => if f = "__init__.py" then some e1 else none,
    fun f => if f = "build.py" then some e2 else none⟩

/-- An external type symbol living in a non-target dependency. -/
def symExtT : Sym := ⟨"ExtType", true, "github.com/dep/pkg"⟩

/-- A type symbol owned by the target package. -/
def symOwnT : Sym := ⟨"OwnType", true, "github.com/foo/bar"⟩

/-- A non-type symbol of the dependency package. -/
def symExtF : Sym := ⟨"extFunc", false, "github.com/dep/pkg"⟩

/-- A three-symbol table mixing external and target-owned symbols. -/
def tbl1 : Symtab := ⟨[symExtT, symOwnT, symExtF], []⟩

/-- A target set containing only the target package's path. -/
def pkgmap1 : List String := ["github.com/foo/bar"]

/-! ### Observation maps on emission events

These projections are used to state ordering and multiplicity
properties of the buffers: the declaration kind of an emission, the
package-header text of a raw print, and the subject names of
getter/setter/constant emissions. -/

/-- The declaration kind of an emission event, in the fixed section
order of `genAll` (types 0, constants 1, variables 2, interfaces 3,
structs 4, constructors/functions 5); `none` for fixed text. -/
def emissionKind : Ev → Option Nat
  | .raw _ => none
  | .typ _ _ _ => some 0
  | .constVal _ => some 1
  | .varGetter _ => some 2
  | .varSetter _ => some 2
  | .iface _ => some 3
  | .strukt _ => some 4
  | .fn _ => some 5

/-- The canonical kind sequence of one package's `genAll` output: a
block per declaration kind, in the fixed source order. -/
def kindBlocks (tbl : Symtab) (p : Package) : List Nat :=
  List.replicate (ownTypes tbl p).length 0
  ++ List.replicate p.consts.length 1
  ++ List.replicate (2 * p.vars.length) 2
  ++ List.replicate p.ifaces.length 3
  ++ List.replicate p.structs.length 4
  ++ List.replicate ((p.structs.map (fun s => s.ctors.length)).sum) 5
  ++ List.replicate p.funcs.length 5

/-- Recognizes the per-package banner `genAll` prints into the glue
buffer (gen.go line 354), by its fixed prefix. -/
def pkgHdrOf : Ev → Option String
  | .raw s =>
    if "\n// ---- Package: ".data.isPrefixOf s.data then some s else none
  | _ => none

/-- The variable name of a getter emission. -/
def varGetterName : Ev → Option String
  | .varGetter n => some n
  | _ => none

/-- The variable name of a setter emission. -/
def varSetterName : Ev → Option String
  | .varSetter n => some n
  | _ => none

/-- The constant name of a constant-value emission. -/
def constValName : Ev → Option String
  | .constVal n => some n
  | _ => none

/-! ### Helper lemmas -/

/-- A `filterMap` over mapped events vanishes when the observation is
blind to the emitted event shape. -/
theorem filterMap_map_eq_nil {α β : Type} (g : Ev → Option β) (f : α → Ev)
    (l : List α) (h : ∀ a, g (f a) = none) : (l.map f).filterMap g = [] := by
  induction l with
  | nil => simp
  | cons a t ih => simp [h, ih]

/-- A `filterMap` over flat-mapped events vanishes when it vanishes on
each generated block. -/
theorem filterMap_flatMap_eq_nil {α β : Type} (g : Ev → Option β)
    (f : α → List Ev) (l : List α) (h : ∀ a, (f a).filterMap g = []) :
    (l.flatMap f).filterMap g = [] := by
  induction l with
  | nil => simp
  | cons a t ih => simp [List.filterMap_append, h, ih]

/-- When `MkdirAll` succeeds, `gen` is the full pass. -/
theorem gen_of_mkdir_ok (cfg : Config) (packages : List Package)
    (tbl : Symtab) (ord : List String) (fs : FS)
    (h : fs.mkdirErr = none) :
    gen cfg packages tbl ord fs = genBody cfg packages tbl ord fs := by
  unfold gen
  rw [h]

/-- When `MkdirAll` fails, `gen` returns the wrapped error at once. -/
theorem gen_of_mkdir_fail (cfg : Config) (packages : List Package)
    (tbl : Symtab) (ord : List String) (fs : FS) (e : String)
    (h : fs.mkdirErr = some e) :
    gen cfg packages tbl ord fs =
      { ret := some ("gopy: could not create output directory: " ++ e),
        errs := [], files := [], pkgField := none } := by
  unfold gen
  rw [h]

/-- The returned error of the full pass is determined by the final
accumulator exactly as gen.go lines 209-212 compute it. -/
theorem genBody_ret_spec (cfg : Config) (packages : List Package)
    (tbl : Symtab) (ord : List String) (fs : FS) :
    (genBody cfg packages tbl ord fs).ret =
      if (genBody cfg packages tbl ord fs).errs = [] then none
      else some (errorListError (genBody cfg packages tbl ord fs).errs) := rfl

set_option maxRecDepth 8192 in
/-- The glue preamble determines its interpolated import list: equal
preamble texts force equal import strings. -/
theorem goPreamble_inj_imports {o c l gh cgh x y : String}
    (h : goPreamble o c l gh cgh x = goPreamble o c l gh cgh y) : x = y := by
  have h2 := congrArg String.data h
  simp only [goPreamble, String.data_append, List.append_assoc,
    List.append_right_inj, List.append_left_inj] at h2
  cases x
  cases y
  exact congrArg String.mk h2

/-! ### C6: the emitted boolean codec -/

/-- C6: the emitted boolean codec is a fixed two-way mapping — encode
maps `true` to the byte 1 and `false` to the zero byte; decode maps
zero to `false` and every nonzero byte to `true`, so decode ∘ encode is
the identity on booleans and any nonzero byte decodes to `true`. -/
theorem boolCodec_roundtrip_and_permissive :
    (∀ b, boolPyToGo (boolGoToPy b) = b) ∧
    boolGoToPy true = 1 ∧ boolGoToPy false = 0 ∧
    boolPyToGo 0 = false ∧
    (∀ n : Int, n ≠ 0 → boolPyToGo n = true) := by
  refine ⟨?_, rfl, rfl, by decide, ?_⟩
  · intro b
    cases b <;> decide
  · intro n hn
    simp [boolPyToGo, hn]

/-- Witness: the permissive decode at the concrete nonzero byte 7. -/
theorem boolCodec_witness : boolPyToGo 7 = true :=
  boolCodec_roundtrip_and_permissive.2.2.2.2 7 (by decide)

/-! ### C1: determinism of the glue preamble across runs -/

/-- C1 (refuting the claim as stated): the foreign-import list embedded
in the glue-file preamble is built by ranging over the Go map
`current.imports`, whose iteration order is not a function of the
symbol table; for the same import-key set {"a", "b"} two legal
iteration orders yield different preamble strings, hence different
glue-preamble emissions for the same table and configuration. -/
theorem genGoPreamble_import_order_nondet :
    List.Perm ["a", "b"] ["b", "a"] ∧
    pkgimportStr ["a", "b"] ≠ pkgimportStr ["b", "a"] ∧
    genGoPreambleEvs cfg0 ["a", "b"] ≠ genGoPreambleEvs cfg0 ["b", "a"] := by
  have hne : pkgimportStr ["a", "b"] ≠ pkgimportStr ["b", "a"] := by decide
  refine ⟨by decide, hne, ?_⟩
  intro h
  simp only [genGoPreambleEvs, List.cons.injEq, Ev.raw.injEq, and_true] at h
  exact hne (goPreamble_inj_imports h)

/-! ### C2: behaviour when directory creation fails -/

/-- C2 counterexample: with `MkdirAll` failing ("boom") and a later
build-script creation failure ("disk full") pending, `gen` writes no
artifact at all — the remaining steps do not execute — and the
returned error's text does not contain the later failure message,
contradicting the claim that both messages are reported. -/
theorem genMkdirFail_counterexample :
    (gen cfg0 [] tbl0 [] fsMkdirFail).files = [] ∧
    (gen cfg0 [] tbl0 [] fsMkdirFail).ret =
      some "gopy: could not create output directory: boom" ∧
    strContains "gopy: could not create output directory: boom"
      "disk full" = false :=
  ⟨rfl, rfl, by decide⟩

/-- C2 amended: a directory-creation failure aborts the run at once
with only the wrapped `MkdirAll` error and nothing executed; error
accumulation applies to failures after a successful directory creation,
where two distinct failures (package-marker creation `e1`, build-script
flush `e2`) are both recorded, in order, and both appear in the
returned error's concatenated text. -/
theorem genMkdirFail_amended :
    (∀ (cfg : Config) (packages : List Package) (tbl : Symtab)
        (ord : List String) (fs : FS) (e : String),
      fs.mkdirErr = some e →
        gen cfg packages tbl ord fs =
          { ret := some ("gopy: could not create output directory: " ++ e),
            errs := [], files := [], pkgField := none }) ∧
    (∀ e1 e2 : String,
      (gen cfg0 [] tbl0 [] (fsTwoFail e1 e2)).errs = [e1, e2] ∧
      (gen cfg0 [] tbl0 [] (fsTwoFail e1 e2)).ret =
        some (errorListError [e1, e2])) := by
  refine ⟨fun cfg packages tbl ord fs e h => gen_of_mkdir_fail _ _ _ _ _ _ h,
    fun e1 e2 => ⟨rfl, rfl⟩⟩

/-- Witness for the amended C2 at concrete inputs. -/
theorem genMkdirFail_amended_witness :
    gen cfg0 [] tbl0 [] fsMkdirFail =
      { ret := some ("gopy: could not create output directory: " ++ "boom"),
        errs := [], files := [], pkgField := none } ∧
    (gen cfg0 [] tbl0 [] (fsTwoFail "a" "b")).errs = ["a", "b"] :=
  ⟨genMkdirFail_amended.1 cfg0 [] tbl0 [] fsMkdirFail "boom" rfl,
    (genMkdirFail_amended.2 "a" "b").1⟩

/-! ### C3: nil-iff-no-errors and the concatenated error text -/

/-- C3 counterexample: when `MkdirAll` fails, `gen` returns a non-nil
error although the error accumulator stayed empty, so "returns nil iff
no errors were accumulated" is false, and the returned text is not the
concatenation of the (zero) recorded messages. -/
theorem genRetIff_counterexample :
    (gen cfg0 [] tbl0 [] fsMkdirFail).errs = [] ∧
    (gen cfg0 [] tbl0 [] fsMkdirFail).ret ≠ none ∧
    (gen cfg0 [] tbl0 [] fsMkdirFail).ret ≠
      some (errorListError (gen cfg0 [] tbl0 [] fsMkdirFail).errs) := by
  refine ⟨rfl, ?_, ?_⟩ <;> simp [gen, fsMkdirFail, errorListError, String.join]

/-- C3 amended: once directory creation succeeds, `gen` returns nil iff
no errors were accumulated during the pass, and otherwise returns the
single error whose text is the concatenation of every recorded message
in the order encountered. -/
theorem genRetIff_amended (cfg : Config) (packages : List Package)
    (tbl : Symtab) (ord : List String) (fs : FS)
    (h : fs.mkdirErr = none) :
    ((gen cfg packages tbl ord fs).ret = none ↔
      (gen cfg packages tbl ord fs).errs = []) ∧
    ((gen cfg packages tbl ord fs).errs ≠ [] →
      (gen cfg packages tbl ord fs).ret =
        some (errorListError (gen cfg packages tbl ord fs).errs)) := by
  rw [gen_of_mkdir_ok cfg packages tbl ord fs h, genBody_ret_spec]
  by_cases hE : (genBody cfg packages tbl ord fs).errs = [] <;> simp [hE]

/-- Witness for the amended C3 on the healthy oracle. -/
theorem genRetIff_amended_witness :
    ((gen cfg0 [] tbl0 [] fsOk).ret = none ↔
      (gen cfg0 [] tbl0 [] fsOk).errs = []) ∧
    ((gen cfg0 [] tbl0 [] fsOk).errs ≠ [] →
      (gen cfg0 [] tbl0 [] fsOk).ret =
        some (errorListError (gen cfg0 [] tbl0 [] fsOk).errs)) :=
  genRetIff_amended cfg0 [] tbl0 [] fsOk rfl

/-! ### C8: the zero-package degenerate run -/

/-- C8: with no target packages (and hence an empty table), a healthy
run still produces all four artifact kinds — the empty package marker,
the glue file, the build script and the build recipe — each holding
exactly its fixed preamble text and trailer, and the glue, build-script
and recipe texts each embed the configured `outname` (the glue and
build-script files are moreover named after it). -/
theorem genZeroPackages (cfg : Config) :
    gen cfg [] ⟨[], []⟩ [] fsOk =
      { ret := none, errs := [],
        files := [("__init__.py", []),
          (cfg.outname ++ ".go",
            [Ev.raw (goPreamble cfg.outname cfg.cmdstr (libcfgOf cfg.vm)
                GoHandle CGoHandle (pkgimportStr [])),
             Ev.raw ("\n// --- generated code for package: " ++ cfg.outname ++
                " below: ---\n\n"),
             Ev.raw "\n// ---- External Types Outside of Targeted Packages ---\n",
             Ev.raw "\n\n"]),
          ("build.py",
            [Ev.raw (PyBuildPreamble cfg.outname cfg.cmdstr),
             Ev.raw ("\nmod.generate(open(\x27" ++ cfg.outname ++
                ".c\x27, \x27w\x27))\n\n")]),
          ("Makefile",
            [Ev.raw (MakefileTemplate cfg.outname cfg.cmdstr
                (makefileGencmd cfg.cmdstr) cfg.vm cfg.libext),
             Ev.raw "\n\n"])],
        pkgField := none } ∧
    (∃ t, goPreamble cfg.outname cfg.cmdstr (libcfgOf cfg.vm) GoHandle
        CGoHandle (pkgimportStr []) =
      "/*\ncgo stubs for package " ++ (cfg.outname ++ t)) ∧
    (∃ t, PyBuildPreamble cfg.outname cfg.cmdstr =
      "# python build stubs for package " ++ (cfg.outname ++ t)) ∧
    (∃ t, MakefileTemplate cfg.outname cfg.cmdstr (makefileGencmd cfg.cmdstr)
        cfg.vm cfg.libext =
      "# Makefile for python interface for package " ++ (cfg.outname ++ t)) := by
  refine ⟨rfl, ⟨_, rfl⟩, ⟨_, rfl⟩, ⟨_, rfl⟩⟩

/-! ### C7: stripping the output-path override from the recipe command -/

/-- The first character-position where `[ch]` begins at or after `i`,
counted through a prefix free of `ch`. -/
theorem goIndexFrom_append_cons (ch : Char) (xs rest : List Char) (i : Nat)
    (h : ch ∉ xs) :
    goIndexFrom [ch] (xs ++ ch :: rest) i = ((i + xs.length : Nat) : Int) := by
  induction xs generalizing i with
  | nil =>
    simp [goIndexFrom, List.isPrefixOf]
  | cons x t ih =>
    have hx : ¬ (ch == x) = true := by
      simp only [beq_iff_eq]
      intro he
      exact h (by simp [he])
    rw [goIndexFrom.eq_def]
    simp only [List.cons_append, List.isPrefixOf, hx, Bool.false_and]
    rw [if_neg (by simp)]
    rw [ih (i + 1) (fun hm => h (List.mem_cons_of_mem _ hm))]
    simp only [List.length_cons]
    push_cast
    omega

/-- C7 counterexample: for the realistic invocation string
`"gopy build -output=/tmp/x"` — where the output override is the final
argument, with no following space — the generate-only variant embedded
in the build recipe still contains the `-output=` override; likewise an
override at position 0 is never stripped.  This refutes "removed
wherever that override appears in the string". -/
theorem stripOutput_counterexample :
    makefileGencmd "gopy build -output=/tmp/x" = "gopy gen -output=/tmp/x" ∧
    strContains (makefileGencmd "gopy build -output=/tmp/x")
      "-output=" = true ∧
    StripOutputFromCmd "-output=/tmp/x gopy gen" = "-output=/tmp/x gopy gen" :=
  ⟨rfl, by decide, rfl⟩

/-- C7 amended: the override is removed only when `"-output="` first
occurs at a positive index and a space follows it; in that case the
first occurrence is removed from `"-output="` through the first
subsequent space inclusive (here: a prefix `a`, the flag with its
space-free value `b`, the following space, and the rest `c`), leaving
`a ++ c`. -/
theorem stripOutput_removes_first (a b c : List Char)
    (ha : 0 < a.length)
    (hfirst : goIndex (a ++ (outputPat ++ (b ++ ' ' :: c))) outputPat =
      (a.length : Int))
    (hb : ' ' ∉ b) :
    stripOutputFromCmd (a ++ (outputPat ++ (b ++ ' ' :: c))) = a ++ c := by
  have hsp : ' ' ∉ outputPat ++ b := by
    intro hm
    rcases List.mem_append.mp hm with h1 | h2
    · revert h1; decide
    · exact hb h2
  have hgi : goIndex (outputPat ++ (b ++ ' ' :: c)) [' '] =
      (((outputPat ++ b).length : Nat) : Int) := by
    have h0 := goIndexFrom_append_cons ' ' (outputPat ++ b) c 0 hsp
    rw [goIndex]
    rw [show (outputPat ++ (b ++ ' ' :: c)) = ((outputPat ++ b) ++ ' ' :: c) by
      simp]
    rw [h0]
    simp
  unfold stripOutputFromCmd
  rw [hfirst]
  rw [if_pos (by exact_mod_cast ha)]
  have htn : ((a.length : Int)).toNat = a.length := by simp
  simp only [htn, List.drop_left, List.take_left, hgi]
  rw [show (a ++ (outputPat ++ (b ++ ' ' :: c))) =
      ((a ++ (outputPat ++ (b ++ [' ']))) ++ c) by simp]
  rw [show ((a.length : Int) + (((outputPat ++ b).length : Nat) : Int) + 1).toNat
      = (a ++ (outputPat ++ (b ++ [' ']))).length by
    simp [List.length_append]
    omega]
  rw [List.drop_left]

/-- Witness for the amended C7: stripping
`"gopy gen -output=/tmp/x github.com/foo/bar"` yields
`"gopy gen github.com/foo/bar"`. -/
theorem stripOutput_removes_first_witness :
    stripOutputFromCmd ("gopy gen ".data ++
      (outputPat ++ ("/tmp/x".data ++ ' ' :: "github.com/foo/bar".data))) =
      "gopy gen ".data ++ "github.com/foo/bar".data :=
  stripOutput_removes_first _ _ _ (by decide) (by decide) (by decide)

/-! ### C4: the external-type pass -/

/-- C4: in the external-type passes, exactly the symbols with
`isType` whose owning package is outside the target set are emitted:
each such symbol exactly once into the glue buffer and exactly once
into a wrapper buffer's external section (given the table's names are
distinct, as a name-keyed symbol map guarantees); no type owned by a
target package is emitted; and the emission order is an
order-preserving restriction of the stable global symbol order (not
grouped by owning package). -/
theorem extTypes_exactly_once (tbl : Symtab) (pkgmap : List String)
    (hnd : (tbl.syms.map (fun s => s.name)).Nodup) :
    (∀ s ∈ tbl.syms, s.isType = true → s.gopkgPath ∉ pkgmap →
        (genExtTypesGoEvs pkgmap tbl).count (Ev.typ s.name true false) = 1 ∧
        (genExtTypesPyWrapEvs pkgmap tbl).count (Ev.typ s.name true true) = 1) ∧
    (∀ s ∈ tbl.syms, s.isType = false ∨ s.gopkgPath ∈ pkgmap →
        ∀ e w, Ev.typ s.name e w ∉ genExtTypesGoEvs pkgmap tbl ∧
               Ev.typ s.name e w ∉ genExtTypesPyWrapEvs pkgmap tbl) ∧
    ((extFilter pkgmap tbl).map (fun s => s.name)).Sublist
      (tbl.syms.map (fun s => s.name)) := by
  have hsub : (extFilter pkgmap tbl).Sublist tbl.syms := List.filter_sublist _
  have hsubn := hsub.map (fun s => s.name)
  have hndf : ((extFilter pkgmap tbl).map (fun s => s.name)).Nodup :=
    hnd.sublist hsubn
  refine ⟨?_, ?_, hsubn⟩
  · intro s hs hT hP
    have hmemf : s ∈ extFilter pkgmap tbl := by
      rw [extFilter, List.mem_filter]
      exact ⟨hs, by simp [hT, hP]⟩
    have hmemn : s.name ∈ (extFilter pkgmap tbl).map (fun s => s.name) :=
      List.mem_map.mpr ⟨s, hmemf, rfl⟩
    have hrw : ∀ wo : Bool,
        (extFilter pkgmap tbl).map (fun t => Ev.typ t.name true wo)
        = ((extFilter pkgmap tbl).map (fun t => t.name)).map
            (fun nm => Ev.typ nm true wo) := by
      intro wo
      simp [List.map_map]
    have hinj : ∀ wo : Bool, Function.Injective (fun nm => Ev.typ nm true wo) := by
      intro wo a b hab
      simpa using hab
    constructor
    · simp only [genExtTypesGoEvs, List.count_cons]
      rw [hrw false, List.count_map_of_injective _ _ (hinj false) s.name,
        List.count_eq_one_of_mem hndf hmemn]
      simp
    · simp only [genExtTypesPyWrapEvs, List.count_cons]
      rw [hrw true, List.count_map_of_injective _ _ (hinj true) s.name,
        List.count_eq_one_of_mem hndf hmemn]
      simp
  · intro s hs hbad e w
    have key : ∀ wo : Bool,
        Ev.typ s.name e w ∈
          (extFilter pkgmap tbl).map (fun t => Ev.typ t.name true wo) → False := by
      intro wo hmem
      rcases List.mem_map.mp hmem with ⟨s', hs', heq⟩
      injection heq with h1 h2 h3
      rw [extFilter, List.mem_filter] at hs'
      have hss : s' = s := List.inj_on_of_nodup_map hnd hs'.1 hs h1
      have hpred := hs'.2
      rw [hss] at hpred
      have hp2 : s.isType = true ∧ s.gopkgPath ∉ pkgmap := by
        simpa using hpred
      rcases hbad with hb1 | hb2
      · rw [hb1] at hp2
        exact absurd hp2.1 (by simp)
      · exact hp2.2 hb2
    constructor
    · intro hmem
      simp only [genExtTypesGoEvs, List.mem_cons] at hmem
      rcases hmem with h0 | hmem
      · exact absurd h0 (by simp)
      · exact key false hmem
    · intro hmem
      simp only [genExtTypesPyWrapEvs, List.mem_cons] at hmem
      rcases hmem with h0 | hmem
      · exact absurd h0 (by simp)
      · exact key true hmem

/-- Witness for C4 on a concrete three-symbol table: the external type
is emitted once into the glue pass, and the target-owned type is not
emitted there. -/
theorem extTypes_exactly_once_witness :
    (genExtTypesGoEvs pkgmap1 tbl1).count (Ev.typ "ExtType" true false) = 1 ∧
    Ev.typ "OwnType" true false ∉ genExtTypesGoEvs pkgmap1 tbl1 :=
  ⟨((extTypes_exactly_once tbl1 pkgmap1 (by decide)).1 symExtT (by decide)
      rfl (by decide)).1,
    (((extTypes_exactly_once tbl1 pkgmap1 (by decide)).2.1 symOwnT (by decide)
      (Or.inr (by decide)) true false).1)⟩

/-! ### C5: fixed section order and package processing order -/

/-- Kinds of the own-types section. -/
theorem filterMap_kind_map_typ (l : List Sym) (e w : Bool) :
    (l.map (fun s => Ev.typ s.name e w)).filterMap emissionKind =
      List.replicate l.length 0 := by
  induction l with
  | nil => simp
  | cons a t ih => simp [emissionKind, ih, List.replicate_succ]

/-- Kinds of the constants section. -/
theorem filterMap_kind_flatMap_const (l : List String) :
    (l.flatMap genConstEvs).filterMap emissionKind =
      List.replicate l.length 1 := by
  induction l with
  | nil => simp
  | cons a t ih => simp [genConstEvs, emissionKind, ih, List.replicate_succ]

/-- Kinds of the variables section: two kind-2 emissions per variable. -/
theorem filterMap_kind_flatMap_var (l : List String) :
    (l.flatMap genVarEvs).filterMap emissionKind =
      List.replicate (2 * l.length) 2 := by
  induction l with
  | nil => simp
  | cons a t ih =>
    rw [List.flatMap_cons, List.filterMap_append, ih]
    show ([Ev.varGetter a, Ev.varSetter a].filterMap emissionKind) ++ _ = _
    rw [show ([Ev.varGetter a, Ev.varSetter a].filterMap emissionKind) = [2, 2]
      from rfl]
    rw [show 2 * (a :: t).length = 2 * t.length + 2 by
      simp [List.length_cons]
      omega]
    rw [show List.replicate (2 * t.length + 2) 2 =
        [2, 2] ++ List.replicate (2 * t.length) 2 by
      rw [Nat.add_comm, List.replicate_add]
      rfl]

/-- Kinds of the interfaces section. -/
theorem filterMap_kind_map_iface (l : List String) :
    (l.map Ev.iface).filterMap emissionKind = List.replicate l.length 3 := by
  induction l with
  | nil => simp
  | cons a t ih => simp [emissionKind, ih, List.replicate_succ]

/-- Kinds of the structs section. -/
theorem filterMap_kind_map_strukt (l : List GoStruct) :
    (l.map (fun s => Ev.strukt s.name)).filterMap emissionKind =
      List.replicate l.length 4 := by
  induction l with
  | nil => simp
  | cons a t ih => simp [emissionKind, ih, List.replicate_succ]

/-- Kinds of a function-emission block. -/
theorem filterMap_kind_map_fn (l : List String) :
    (l.map Ev.fn).filterMap emissionKind = List.replicate l.length 5 := by
  induction l with
  | nil => simp
  | cons a t ih => simp [emissionKind, ih, List.replicate_succ]

/-- Kinds of the constructors section. -/
theorem filterMap_kind_flatMap_ctors (l : List GoStruct) :
    (l.flatMap (fun s => s.ctors.map Ev.fn)).filterMap emissionKind =
      List.replicate ((l.map (fun s => s.ctors.length)).sum) 5 := by
  induction l with
  | nil => simp
  | cons a t ih =>
    rw [List.flatMap_cons, List.filterMap_append, ih, filterMap_kind_map_fn]
    rw [List.map_cons, List.sum_cons, List.replicate_add]

/-- The glue-buffer side of one package's `genAll` output carries the
canonical kind blocks. -/
theorem genAllGo_kinds (tbl : Symtab) (p : Package) :
    (genAllGoEvs tbl p).filterMap emissionKind = kindBlocks tbl p := by
  rw [genAllGoEvs, kindBlocks]
  simp only [List.filterMap_append, List.filterMap_cons, emissionKind,
    filterMap_kind_map_typ, filterMap_kind_flatMap_const,
    filterMap_kind_flatMap_var, filterMap_kind_map_iface,
    filterMap_kind_map_strukt, filterMap_kind_map_fn,
    filterMap_kind_flatMap_ctors, List.filterMap_nil]
  simp

/-- The wrapper-buffer side of one package's `genAll` output carries
the same canonical kind blocks. -/
theorem genAllPy_kinds (tbl : Symtab) (p : Package) :
    (genAllPyEvs tbl p).filterMap emissionKind = kindBlocks tbl p := by
  rw [genAllPyEvs, kindBlocks]
  simp only [List.filterMap_append, List.filterMap_cons, emissionKind,
    filterMap_kind_map_typ, filterMap_kind_flatMap_const,
    filterMap_kind_flatMap_var, filterMap_kind_map_iface,
    filterMap_kind_map_strukt, filterMap_kind_map_fn,
    filterMap_kind_flatMap_ctors, List.filterMap_nil]
  simp

/-- The canonical kind sequence is monotone: sections appear in the
fixed order types, constants, variables, interfaces, structs,
constructors, functions. -/
theorem kindBlocks_sorted (tbl : Symtab) (p : Package) :
    List.Sorted (· ≤ ·) (kindBlocks tbl p) := by
  rw [kindBlocks, List.Sorted]
  simp [List.pairwise_append, List.mem_replicate, List.pairwise_replicate]
  refine ⟨⟨?_, ?_⟩, ?_⟩
  · intro _ x hx
    rcases hx with ⟨-, rfl⟩ | ⟨-, rfl⟩ <;> omega
  · intro _ x hx
    rcases hx with ⟨-, rfl⟩ | ⟨-, rfl⟩ | ⟨-, rfl⟩ <;> omega
  · intro _ x hx
    rcases hx with ⟨-, rfl⟩ | ⟨-, rfl⟩ | ⟨-, rfl⟩ | ⟨-, rfl⟩ <;> omega

/-- One package's glue section contributes exactly its own banner. -/
theorem filterMap_pkgHdrOf_genAllGo (tbl : Symtab) (q : Package) :
    (genAllGoEvs tbl q).filterMap pkgHdrOf =
      ["\n// ---- Package: " ++ q.name ++ " ---\n"] := by
  have hhd : pkgHdrOf (Ev.raw ("\n// ---- Package: " ++ q.name ++ " ---\n")) =
      some ("\n// ---- Package: " ++ q.name ++ " ---\n") := by
    simp [pkgHdrOf, String.data_append]
  have htyp : ∀ l : List Sym, ∀ e w : Bool,
      (l.map (fun s => Ev.typ s.name e w)).filterMap pkgHdrOf = [] :=
    fun l e w => filterMap_map_eq_nil _ _ _ (fun a => rfl)
  have hconst : ∀ l : List String,
      (l.flatMap genConstEvs).filterMap pkgHdrOf = [] :=
    fun l => filterMap_flatMap_eq_nil _ _ _ (fun a => rfl)
  have hvar : ∀ l : List String,
      (l.flatMap genVarEvs).filterMap pkgHdrOf = [] :=
    fun l => filterMap_flatMap_eq_nil _ _ _ (fun a => rfl)
  have hifc : ∀ l : List String, (l.map Ev.iface).filterMap pkgHdrOf = [] :=
    fun l => filterMap_map_eq_nil _ _ _ (fun a => rfl)
  have hstr : ∀ l : List GoStruct,
      (l.map (fun s => Ev.strukt s.name)).filterMap pkgHdrOf = [] :=
    fun l => filterMap_map_eq_nil _ _ _ (fun a => rfl)
  have hfn : ∀ l : List String, (l.map Ev.fn).filterMap pkgHdrOf = [] :=
    fun l => filterMap_map_eq_nil _ _ _ (fun a => rfl)
  have hctor : ∀ l : List GoStruct,
      (l.flatMap (fun s => s.ctors.map Ev.fn)).filterMap pkgHdrOf = [] :=
    fun l => filterMap_flatMap_eq_nil _ _ _
      (fun a => filterMap_map_eq_nil _ _ _ (fun b => rfl))
  rw [genAllGoEvs]
  simp only [List.filterMap_append, List.filterMap_cons, hhd,
    htyp, hconst, hvar, hifc, hstr, hfn, hctor]
  rw [show pkgHdrOf (Ev.raw "\n// ---- Types ---\n") = none from rfl]
  rw [show pkgHdrOf (Ev.raw
    "\n\n// ---- Global Variables: can only use functions to access ---\n") =
    none from rfl]
  rw [show pkgHdrOf (Ev.raw "\n\n// ---- Interfaces ---\n") = none from rfl]
  rw [show pkgHdrOf (Ev.raw "\n\n// ---- Structs ---\n") = none from rfl]
  rw [show pkgHdrOf (Ev.raw "\n\n// ---- Constructors ---\n") = none from rfl]
  rw [show pkgHdrOf (Ev.raw "\n\n// ---- Functions ---\n") = none from rfl]
  simp

/-- C5: for every target package, both the glue-buffer and the
wrapper-buffer emissions of `genAll` follow the fixed kind order types,
constants, variables (getter/setter pairs), interfaces, structs,
constructors, functions — the kind sequence equals the canonical
monotone blocks regardless of how the package stores its declaration
lists — and the glue file's per-package banners appear exactly in the
order of the package table, one banner per package. -/
theorem genAll_fixed_section_order :
    (∀ (tbl : Symtab) (p : Package),
      (genAllGoEvs tbl p).filterMap emissionKind = kindBlocks tbl p ∧
      (genAllPyEvs tbl p).filterMap emissionKind = kindBlocks tbl p ∧
      List.Sorted (· ≤ ·) ((genAllGoEvs tbl p).filterMap emissionKind) ∧
      List.Sorted (· ≤ ·) ((genAllPyEvs tbl p).filterMap emissionKind)) ∧
    (∀ (cfg : Config) (pkgmap : List String) (tbl : Symtab)
        (ord : List String) (packages : List Package),
      (gofileEvs cfg pkgmap tbl ord packages).filterMap pkgHdrOf =
        packages.map (fun q => "\n// ---- Package: " ++ q.name ++ " ---\n")) := by
  constructor
  · intro tbl p
    refine ⟨genAllGo_kinds tbl p, genAllPy_kinds tbl p, ?_, ?_⟩
    · rw [genAllGo_kinds]
      exact kindBlocks_sorted tbl p
    · rw [genAllPy_kinds]
      exact kindBlocks_sorted tbl p
  · intro cfg pkgmap tbl ord packages
    have h1 : (genGoPreambleEvs cfg ord).filterMap pkgHdrOf = [] := rfl
    have h2 : (genExtTypesGoEvs pkgmap tbl).filterMap pkgHdrOf = [] := by
      rw [genExtTypesGoEvs]
      simp only [List.filterMap_cons]
      rw [show pkgHdrOf (Ev.raw
        "\n// ---- External Types Outside of Targeted Packages ---\n") =
        none from rfl]
      exact filterMap_map_eq_nil _ _ _ (fun a => rfl)
    have h3 : (packages.flatMap (genAllGoEvs tbl)).filterMap pkgHdrOf =
        packages.map (fun q => "\n// ---- Package: " ++ q.name ++ " ---\n") := by
      induction packages with
      | nil => simp
      | cons q t ih =>
        rw [List.flatMap_cons, List.filterMap_append,
          filterMap_pkgHdrOf_genAllGo, ih, List.map_cons]
        rfl
    rw [gofileEvs]
    simp only [List.filterMap_append, h1, h2, h3]
    simp [pkgHdrOf]

/-! ### C9: getter/setter pairs for variables, single values for constants -/

/-- An observation blind to every emission except constants and
variables sees, in either `genAll` buffer, exactly the constants
section followed by the variables section. -/
theorem genAll_filterMap_cv {β : Type} (g : Ev → Option β)
    (hraw : ∀ s, g (Ev.raw s) = none)
    (htyp : ∀ n e w, g (Ev.typ n e w) = none)
    (hifc : ∀ n, g (Ev.iface n) = none)
    (hstr : ∀ n, g (Ev.strukt n) = none)
    (hfn : ∀ n, g (Ev.fn n) = none)
    (tbl : Symtab) (p : Package) :
    (genAllGoEvs tbl p).filterMap g =
      (p.consts.flatMap genConstEvs).filterMap g ++
      (p.vars.flatMap genVarEvs).filterMap g ∧
    (genAllPyEvs tbl p).filterMap g =
      (p.consts.flatMap genConstEvs).filterMap g ++
      (p.vars.flatMap genVarEvs).filterMap g := by
  have ht : ∀ l : List Sym, ∀ e w : Bool,
      (l.map (fun s => Ev.typ s.name e w)).filterMap g = [] :=
    fun l e w => filterMap_map_eq_nil _ _ _ (fun a => htyp _ _ _)
  have hi : ∀ l : List String, (l.map Ev.iface).filterMap g = [] :=
    fun l => filterMap_map_eq_nil _ _ _ (fun a => hifc a)
  have hst : ∀ l : List GoStruct,
      (l.map (fun s => Ev.strukt s.name)).filterMap g = [] :=
    fun l => filterMap_map_eq_nil _ _ _ (fun a => hstr _)
  have hf : ∀ l : List String, (l.map Ev.fn).filterMap g = [] :=
    fun l => filterMap_map_eq_nil _ _ _ (fun a => hfn a)
  have hct : ∀ l : List GoStruct,
      (l.flatMap (fun s => s.ctors.map Ev.fn)).filterMap g = [] :=
    fun l => filterMap_flatMap_eq_nil _ _ _
      (fun a => filterMap_map_eq_nil _ _ _ (fun b => hfn b))
  constructor
  · rw [genAllGoEvs]
    simp [List.filterMap_append, hraw, ht, hi, hst, hf, hct]
  · rw [genAllPyEvs]
    simp [List.filterMap_append, hraw, ht, hi, hst, hf, hct]

/-- The getter emissions of the variables section are, in order,
exactly the package's variables. -/
theorem filterMap_varGetterName_var (l : List String) :
    (l.flatMap genVarEvs).filterMap varGetterName = l := by
  induction l with
  | nil => simp
  | cons a t ih => simp [genVarEvs, varGetterName, ih]

/-- The setter emissions of the variables section are, in order,
exactly the package's variables. -/
theorem filterMap_varSetterName_var (l : List String) :
    (l.flatMap genVarEvs).filterMap varSetterName = l := by
  induction l with
  | nil => simp
  | cons a t ih => simp [genVarEvs, varSetterName, ih]

/-- The value emissions of the constants section are, in order, exactly
the package's constants. -/
theorem filterMap_constValName_const (l : List String) :
    (l.flatMap genConstEvs).filterMap constValName = l := by
  induction l with
  | nil => simp
  | cons a t ih => simp [genConstEvs, constValName, ih]

/-- C9: for every target package, the getter emissions are exactly the
variable list and the setter emissions are exactly the variable list
(so each variable gets precisely two emissions, one accessor and one
mutator), while the value emissions are exactly the constant list (one
emission per constant); since setter emissions track only the variable
list, a constant that is not also a variable gets no setter.  Holds in
both the glue and the wrapper buffer. -/
theorem genVar_two_emissions_genConst_one (tbl : Symtab) (p : Package) :
    ((genAllGoEvs tbl p).filterMap varGetterName = p.vars ∧
     (genAllGoEvs tbl p).filterMap varSetterName = p.vars ∧
     (genAllGoEvs tbl p).filterMap constValName = p.consts) ∧
    ((genAllPyEvs tbl p).filterMap varGetterName = p.vars ∧
     (genAllPyEvs tbl p).filterMap varSetterName = p.vars ∧
     (genAllPyEvs tbl p).filterMap constValName = p.consts) := by
  have hg := genAll_filterMap_cv varGetterName (fun _ => rfl)
    (fun _ _ _ => rfl) (fun _ => rfl) (fun _ => rfl) (fun _ => rfl) tbl p
  have hs := genAll_filterMap_cv varSetterName (fun _ => rfl)
    (fun _ _ _ => rfl) (fun _ => rfl) (fun _ => rfl) (fun _ => rfl) tbl p
  have hc := genAll_filterMap_cv constValName (fun _ => rfl)
    (fun _ _ _ => rfl) (fun _ => rfl) (fun _ => rfl) (fun _ => rfl) tbl p
  have hcg : (p.consts.flatMap genConstEvs).filterMap varGetterName = [] :=
    filterMap_flatMap_eq_nil _ _ _ (fun a => rfl)
  have hcs : (p.consts.flatMap genConstEvs).filterMap varSetterName = [] :=
    filterMap_flatMap_eq_nil _ _ _ (fun a => rfl)
  have hvc : (p.vars.flatMap genVarEvs).filterMap constValName = [] :=
    filterMap_flatMap_eq_nil _ _ _ (fun a => rfl)
  refine ⟨⟨?_, ?_, ?_⟩, ⟨?_, ?_, ?_⟩⟩
  · rw [hg.1, hcg, filterMap_varGetterName_var]
    simp
  · rw [hs.1, hcs, filterMap_varSetterName_var]
    simp
  · rw [hc.1, hvc, filterMap_constValName_const]
    simp
  · rw [hg.2, hcg, filterMap_varGetterName_var]
    simp
  · rw [hs.2, hcs, filterMap_varSetterName_var]
    simp
  · rw [hc.2, hvc, filterMap_constValName_const]
    simp

/-! ### C10: per-package wrapper isolation -/

/-- One healthy `genPkg` step: errors unchanged, exactly one wrapper
file appended — named after the package and holding the fresh buffer's
content — and `g.pkg` reset to nil. -/
theorem genPkg_fsOk_step (cfg : Config) (tbl : Symtab) (pkgmap : List String)
    (st : GenSt) (p : Package) :
    genPkg fsOk cfg tbl pkgmap st p =
      ⟨st.errs, st.files ++ [(p.name ++ ".py", wrapEvs cfg tbl pkgmap p)],
        none⟩ := rfl

/-- The healthy package loop appends one wrapper file per package, in
the table's order, each a function of its own package alone. -/
theorem foldl_genPkg_fsOk (cfg : Config) (tbl : Symtab) (pkgmap : List String) :
    ∀ (l : List Package) (st : GenSt),
      l.foldl (genPkg fsOk cfg tbl pkgmap) st =
        ⟨st.errs,
          st.files ++
            l.map (fun p => (p.name ++ ".py", wrapEvs cfg tbl pkgmap p)),
          if l = [] then st.pkg else none⟩ := by
  intro l
  induction l with
  | nil => intro st; simp
  | cons a t ih =>
    intro st
    rw [List.foldl_cons, genPkg_fsOk_step, ih]
    simp

/-- Full characterization of a healthy run: the package marker first,
then one wrapper per package in order, then the three shared
artifacts; no error, and the current-package field left nil. -/
theorem gen_fsOk_spec (cfg : Config) (packages : List Package) (tbl : Symtab)
    (ord : List String) :
    gen cfg packages tbl ord fsOk =
      { ret := none, errs := [],
        files := ("__init__.py", []) ::
          (packages.map (fun p =>
            (p.name ++ ".py", wrapEvs cfg tbl (pkgPaths packages) p))
           ++ [(cfg.outname ++ ".go",
                gofileEvs cfg (pkgPaths packages) tbl ord packages),
               ("build.py", pybuildEvs cfg),
               ("Makefile", makefileEvs cfg)]),
        pkgField := none } := by
  have hf := foldl_genPkg_fsOk cfg tbl (pkgPaths packages) packages
    ⟨[], [("__init__.py", [])], none⟩
  have hcr : fsOk.createErr "__init__.py" = none := rfl
  have hpo : ∀ (errs : List String) (outfn : String) (buf : List Ev),
      genPrintOut fsOk errs outfn buf = (errs, [(outfn, buf)]) :=
    fun _ _ _ => rfl
  rw [gen_of_mkdir_ok _ _ _ _ _ rfl]
  simp only [genBody, hcr, errAdd, hpo, hf]
  simp

/-- C10: wrapper isolation.  Every `genPkg` call leaves the
current-package field nil (it is reset after the flush), the whole run
ends with it nil, and in a healthy run the produced wrapper files are
exactly one per package, in processing order, each named after its
package and containing only that package's fresh buffer — wrapper
preamble, external types, and that package's own declarations — with
no content from any previously processed package. -/
theorem wrapper_isolation (cfg : Config) (packages : List Package)
    (tbl : Symtab) (ord : List String) :
    (∀ (fs : FS) (st : GenSt) (p : Package),
      (genPkg fs cfg tbl (pkgPaths packages) st p).pkg = none) ∧
    (gen cfg packages tbl ord fsOk).pkgField = none ∧
    (∃ glue build mk,
      (gen cfg packages tbl ord fsOk).files =
        ("__init__.py", []) ::
          (packages.map (fun p =>
            (p.name ++ ".py", wrapEvs cfg tbl (pkgPaths packages) p))
           ++ [(cfg.outname ++ ".go", glue), ("build.py", build),
               ("Makefile", mk)])) := by
  refine ⟨fun fs st p => rfl, ?_, ?_⟩
  · rw [gen_fsOk_spec]
  · exact ⟨_, _, _, by rw [gen_fsOk_spec]⟩

end GopyGen
